import Mathlib

/-!
Verification of the Telegram notification service backend
(`alerts/service_backends/telegram.py`).

The Python module is shallowly embedded: the persisted configuration table is a
function from ids to optional records, `timezone.now()` is threaded as an
explicit `now` parameter, and the outcome of the `requests.post` call (the only
interaction with the outside world) is an explicit `PostOutcome` input.  The
`immediate_atomic(only_if_needed=True)` context manager only scopes a database
transaction; in this sequential model the body simply runs.
-/

set_option maxRecDepth 4096

/-- Parsed JSON values, as produced by Python's `json.loads` / `Response.json()`.
`null` corresponds to Python `None`; numbers are modelled as integers (no claim
involves fractional JSON numbers).  Keys of objects produced by `json.loads`
are unique. -/
inductive JsonValue where
  | null
  | bool (b : Bool)
  | num (n : Int)
  | str (s : String)
  | arr (elems : List JsonValue)
  | obj (fields : List (String × JsonValue))

/-- Python type name of a parsed JSON value (as in `type(x).__name__`). -/
def pyTypeName : JsonValue → String
  | JsonValue.null => "NoneType"
  | JsonValue.bool _ => "bool"
  | JsonValue.num _ => "int"
  | JsonValue.str _ => "str"
  | JsonValue.arr _ => "list"
  | JsonValue.obj _ => "dict"

mutual

/-- Python `repr` of a parsed JSON value (escaping inside string reprs is not
modelled; no claim exercises it). -/
def pyRepr : JsonValue → String
  | JsonValue.null => "None"
  | JsonValue.bool true => "True"
  | JsonValue.bool false => "False"
  | JsonValue.num n => toString n
  | JsonValue.str s => "\x27" ++ s ++ "\x27"
  | JsonValue.arr xs => "[" ++ pyReprList xs ++ "]"
  | JsonValue.obj fs => "\x7b" ++ pyReprFields fs ++ "\x7d"

/-- Comma-separated reprs of list elements. -/
def pyReprList : List JsonValue → String
  | [] => ""
  | [x] => pyRepr x
  | x :: xs => pyRepr x ++ ", " ++ pyReprList xs

/-- Comma-separated `'key': repr(value)` renderings of dict entries. -/
def pyReprFields : List (String × JsonValue) → String
  | [] => ""
  | [kv] => "\x27" ++ kv.1 ++ "\x27: " ++ pyRepr kv.2
  | kv :: rest => "\x27" ++ kv.1 ++ "\x27: " ++ pyRepr kv.2 ++ ", " ++ pyReprFields rest

end

/-- Python `str` of a parsed JSON value: strings print bare, containers print
as their repr. -/
def pyStr : JsonValue → String
  | JsonValue.str s => s
  | v => pyRepr v

/-- A raised Python exception, reduced to the two observations the module
makes of it: `type(e).__name__` and `str(e)`. -/
structure PyException where
  ty : String
  msg : String
deriving DecidableEq

/-- An HTTP response as seen through the `requests` library.  `parsed` is the
result of JSON-parsing `text` (the external `json` library is modelled as this
field): `none` when `text` is not valid JSON.   Both `result.json()` and the
`json.loads(response.text)` probe in `_store_failure_info` parse the same body,
so both are read off `parsed`.  `reason` is the HTTP reason phrase and `url`
the requested URL, both used by `requests` when building the
`raise_for_status` error message. -/
structure HttpResponse where
  status_code : Nat
  reason : String
  url : String
  text : String
  parsed : Option JsonValue

/-- Modelled from the spec: the failure-tracking fields of
`MessagingServiceConfig` (`alerts/models.py` is not among the sources; the
spec's §3 enumerates the fields).  `config` stands for the non-failure columns
of the record, which the outcome writes never touch.  Timestamps are modelled
as naturals. -/
structure MessagingServiceConfig where
  config : String
  last_failure_timestamp : Option Nat
  last_failure_error_type : Option String
  last_failure_error_message : Option String
  last_failure_status_code : Option Nat
  last_failure_response_text : Option String
  last_failure_is_json : Option Bool
deriving DecidableEq

/-- Modelled from the spec: `MessagingServiceConfig.clear_failure_status`
(defined in `alerts/models.py`, not among the sources) clears all
failure-tracking fields together. -/
def clear_failure_status (config : MessagingServiceConfig) : MessagingServiceConfig :=
  { config with
    last_failure_timestamp := none,
    last_failure_error_type := none,
    last_failure_error_message := none,
    last_failure_status_code := none,
    last_failure_response_text := none,
    last_failure_is_json := none }

/-- The persisted `MessagingServiceConfig` table, keyed by id. -/
abbrev Store := Nat → Option MessagingServiceConfig

/-- Saving a record under its id (`config.save()`). -/
def storeSave (store : Store) (id : Nat) (c : MessagingServiceConfig) : Store :=
  fun k => if k = id then some c else store k

/-- Embedding of `_store_failure_info(service_config_id, exception, response=None)`:
look the record up; on `DoesNotExist` silently do nothing; otherwise set the
timestamp/type/message triple, then either capture status code, the first 2000
characters of the body and whether the body parses as JSON (when a response
object was supplied) or null out those three fields (when not), and save. -/
def _store_failure_info (service_config_id : Nat) (exception : PyException)
    (response : Option HttpResponse) (store : Store) (now : Nat) : Store :=
  match store service_config_id with
  | none => store
  | some config =>
    let config := { config with
      last_failure_timestamp := some now,
      last_failure_error_type := some exception.ty,
      last_failure_error_message := some exception.msg }
    let config := match response with
      | some r => { config with
          last_failure_status_code := some r.status_code,
          last_failure_response_text := some (r.text.take 2000),
          last_failure_is_json := some r.parsed.isSome }
      | none => { config with
          last_failure_status_code := none,
          last_failure_response_text := none,
          last_failure_is_json := none }
    storeSave store service_config_id config

/-- Embedding of `_store_success_info(service_config_id)`: look the record up;
on `DoesNotExist` silently do nothing; otherwise clear the failure fields and
save. -/
def _store_success_info (service_config_id : Nat) (store : Store) : Store :=
  match store service_config_id with
  | none => store
  | some config => storeSave store service_config_id (clear_failure_status config)

/-- Modelled from the spec: `requests.Response.raise_for_status` (external
library, assumed by the spec's interface section) raises `requests.HTTPError`
for error statuses; its message is built from the status code, the reason
phrase and the URL, and the raised error carries the response object.  The
module only invokes it when `status_code >= 400`. -/
def raise_for_status_error (r : HttpResponse) : PyException :=
  { ty := "HTTPError",
    msg :=
      if r.status_code < 500 then
        toString r.status_code ++ " Client Error: " ++ r.reason ++ " for url: " ++ r.url
      else
        toString r.status_code ++ " Server Error: " ++ r.reason ++ " for url: " ++ r.url }

/-- The `AttributeError` raised by `response_data.get(...)` when the parsed
body is not a dict (Python lists, strings, numbers and booleans have no `get`
method). -/
def attribute_error_get (v : JsonValue) : PyException :=
  { ty := "AttributeError",
    msg := "\x27" ++ pyTypeName v ++ "\x27 object has no attribute \x27get\x27" }

/-- Python `response_data.get("ok") is False`: true exactly when the key is
present and bound to the boolean `false` (JSON `null`, `0`, strings and a
missing key all fail the identity test with `False`). -/
def isOkFalse : Option JsonValue → Bool
  | some (JsonValue.bool false) => true
  | _ => false

/-- Python `str` of `response_data.get("description", "Telegram API error")`,
which becomes the message of the synthesized `HTTPError`. -/
def descriptionMessage (fields : List (String × JsonValue)) : String :=
  match List.lookup "description" fields with
  | some v => pyStr v
  | none => "Telegram API error"

/-- Outcome of the `requests.post` call, the module's one interaction with the
network.  `requestException` is a raised `requests.RequestException`, carrying
`getattr(e, "response", None)`; `otherException` is any other raised
exception. -/
inductive PostOutcome where
  | ok (result : HttpResponse)
  | requestException (e : PyException) (response : Option HttpResponse)
  | otherException (e : PyException)

/-- The JSON payload posted to the `sendMessage` endpoint. -/
structure Payload where
  chat_id : String
  text : String
  disable_web_page_preview : Bool
deriving DecidableEq

/-- Embedding of `_truncate_message(text, max_length=4000)`. -/
def _truncate_message (text : String) (max_length : Nat := 4000) : String :=
  if text.length ≤ max_length then text
  else text.take (max_length - 3) ++ "..."

/-- Embedding of `_send_telegram_message(bot_token, payload, service_config_id)`.
Inside the `try` block: the body is parsed (`result.json()`, parse failure
tolerated as `None`); a status `>= 400` triggers `raise_for_status`, whose
`HTTPError` is caught by the `except requests.RequestException` arm with
`response = result`; otherwise a parsed dict body whose `ok` entry is the
boolean `False` triggers a synthesized `HTTPError` (same arm, same response),
a parsed non-dict, non-null body makes `response_data.get` raise
`AttributeError`, caught by the generic `except Exception` arm with no
response, and every remaining case reaches `_store_success_info`.  A
`requests.RequestException` raised by `requests.post` itself lands in the
first arm with whatever `response` attribute it carries; any other exception
lands in the second arm. -/
def _send_telegram_message (bot_token : String) (payload : Payload)
    (service_config_id : Nat) (store : Store) (now : Nat) (net : PostOutcome) : Store :=
  match net with
  | PostOutcome.ok result =>
    if result.status_code ≥ 400 then
      _store_failure_info service_config_id (raise_for_status_error result) (some result) store now
    else
      match result.parsed with
      | none => _store_success_info service_config_id store
      | some JsonValue.null => _store_success_info service_config_id store
      | some (JsonValue.obj fields) =>
        if isOkFalse (List.lookup "ok" fields) then
          _store_failure_info service_config_id
            (PyException.mk "HTTPError" (descriptionMessage fields)) (some result) store now
        else
          _store_success_info service_config_id store
      | some v =>
        _store_failure_info service_config_id (attribute_error_get v) none store now
  | PostOutcome.requestException e response =>
    _store_failure_info service_config_id e response store now
  | PostOutcome.otherException e =>
    _store_failure_info service_config_id e none store now

/-- Embedding of the task body of `telegram_backend_send_test_message`: the
three fixed lines are joined, truncated, wrapped into the payload and handed
to `_send_telegram_message`.  The composed payload is returned alongside the
resulting store so that the outbound request is observable. -/
def telegram_backend_send_test_message (bot_token chat_id project_name display_name : String)
    (service_config_id : Nat) (store : Store) (now : Nat) (net : PostOutcome) :
    Payload × Store :=
  let lines : List String := [
    "Test message by Bugsink to test the Telegram bot setup.",
    "Project: " ++ project_name,
    "Message backend: " ++ display_name]
  let payload : Payload := {
    chat_id := chat_id,
    text := _truncate_message (String.intercalate "\n" lines),
    disable_web_page_preview := true }
  (payload, _send_telegram_message bot_token payload service_config_id store now net)

/-- Modelled from the spec: the issue-tracking domain model (`issues/models.py`
is not among the sources) supplies a title (`issue.title()`), the owning
project's name (`issue.project.name`) and a site-relative URL
(`issue.get_absolute_url()`). -/
structure Issue where
  title : String
  project_name : String
  absolute_url : String

/-- Modelled from the spec: Django's `truncatechars` template filter returns
the text unchanged when it fits, else its first `n - 1` characters followed by
the one-character horizontal ellipsis. -/
def truncatechars (s : String) (n : Nat) : String :=
  if s.length ≤ n then s else s.take (n - 1) ++ "…"

/-- Embedding of the task body of `telegram_backend_send_alert`.  The issue
lookup (`Issue.objects.get(id=issue_id)`) and the whole message composition
run before `_send_telegram_message` and outside any `try` block: a missing
issue raises `Issue.DoesNotExist` out of the task, modelled as the
`Except.error` result.  `issues` is the issue table and `base_url` the value
of `get_settings().BASE_URL`.  `state_description` and `alert_article` are
accepted and ignored, exactly as in the source.  The Python truthiness test
`if unmute_reason:` skips the extra line for both `None` and the empty
string. -/
def telegram_backend_send_alert (bot_token chat_id : String) (issue_id : Nat)
    (state_description alert_article alert_reason : String) (service_config_id : Nat)
    (unmute_reason : Option String) (issues : Nat → Option Issue) (base_url : String)
    (store : Store) (now : Nat) (net : PostOutcome) :
    Except PyException (Payload × Store) :=
  match issues issue_id with
  | none => Except.error (PyException.mk "DoesNotExist" "Issue matching query does not exist.")
  | some issue =>
    let issue_url := base_url ++ issue.absolute_url
    let baseLines : List String := [
      alert_reason ++ " issue",
      "Issue: " ++ truncatechars issue.title 200,
      "Project: " ++ issue.project_name,
      "URL: " ++ issue_url]
    let lines : List String := match unmute_reason with
      | some r => if r = "" then baseLines else baseLines ++ ["Unmute reason: " ++ r]
      | none => baseLines
    let payload : Payload := {
      chat_id := chat_id,
      text := _truncate_message (String.intercalate "\n" lines),
      disable_web_page_preview := true }
    Except.ok (payload, _send_telegram_message bot_token payload service_config_id store now net)

/-- Splitting a character list at newline characters (helper for stating that
a composed text consists of given lines). -/
def splitNlAux : List Char → List Char → List (List Char)
  | acc, [] => [acc.reverse]
  | acc, c :: cs => if c = '\n' then acc.reverse :: splitNlAux [] cs else splitNlAux (c :: acc) cs

/-- The lines of a string: its data split at newline characters. -/
def splitOnNewlines (s : String) : List String :=
  (splitNlAux [] s.data).map String.mk

/-- All six failure-tracking fields are null. -/
def all_failure_fields_null (c : MessagingServiceConfig) : Bool :=
  c.last_failure_timestamp.isNone && c.last_failure_error_type.isNone &&
  c.last_failure_error_message.isNone && c.last_failure_status_code.isNone &&
  c.last_failure_response_text.isNone && c.last_failure_is_json.isNone

/-- All six failure-tracking fields are populated. -/
def all_failure_fields_populated (c : MessagingServiceConfig) : Bool :=
  c.last_failure_timestamp.isSome && c.last_failure_error_type.isSome &&
  c.last_failure_error_message.isSome && c.last_failure_status_code.isSome &&
  c.last_failure_response_text.isSome && c.last_failure_is_json.isSome

/-- A consistent failure snapshot: either the healthy all-null state, or the
timestamp/type/message triple populated with the response-derived triple
(status code, body text, is-json flag) uniformly all populated or all null. -/
def failure_snapshot_ok (c : MessagingServiceConfig) : Bool :=
  all_failure_fields_null c ||
  (c.last_failure_timestamp.isSome && c.last_failure_error_type.isSome &&
   c.last_failure_error_message.isSome &&
   ((c.last_failure_status_code.isSome && c.last_failure_response_text.isSome &&
     c.last_failure_is_json.isSome) ||
    (c.last_failure_status_code.isNone && c.last_failure_response_text.isNone &&
     c.last_failure_is_json.isNone)))

/-- A healthy sample record, used by concrete witnesses. -/
def sampleConfig : MessagingServiceConfig :=
  { config := "cfg",
    last_failure_timestamp := none,
    last_failure_error_type := none,
    last_failure_error_message := none,
    last_failure_status_code := none,
    last_failure_response_text := none,
    last_failure_is_json := none }

/-- A one-record sample table holding `sampleConfig` under id 1. -/
def sampleStore : Store := fun k => if k = 1 then some sampleConfig else none

/-- A sample payload, used by concrete witnesses. -/
def samplePayload : Payload :=
  { chat_id := "@chan", text := "hello", disable_web_page_preview := true }

/-- Discriminator for `Except`: true exactly on `Except.ok` results
(a task run that did not raise). -/
def isOkResult {ε α : Type} : Except ε α → Bool
  | Except.ok _ => true
  | Except.error _ => false

/-- A 4001-character input, exercising the truncation branch. -/
def longText : String := String.mk (List.replicate 4001 'a')

/-- Parsed body of `{"ok": false, "description": "chat not found"}`. -/
def chatNotFoundBody : List (String × JsonValue) :=
  [("ok", JsonValue.bool false), ("description", JsonValue.str "chat not found")]

/-- An HTTP 200 response whose JSON body signals logical failure. -/
def okFalseResponse : HttpResponse :=
  { status_code := 200, reason := "OK", url := "https://api.telegram.org/botT/sendMessage",
    text := "\x7b\"ok\": false, \"description\": \"chat not found\"\x7d",
    parsed := some (JsonValue.obj chatNotFoundBody) }

/-- Parsed body of `{"ok": false, "description": "Unauthorized"}`. -/
def unauthorizedBody : List (String × JsonValue) :=
  [("ok", JsonValue.bool false), ("description", JsonValue.str "Unauthorized")]

/-- An HTTP 401 response with a JSON error body. -/
def unauthorizedResponse : HttpResponse :=
  { status_code := 401, reason := "Unauthorized", url := "https://api.telegram.org/botT/sendMessage",
    text := "\x7b\"ok\": false, \"description\": \"Unauthorized\"\x7d",
    parsed := some (JsonValue.obj unauthorizedBody) }

/-- An HTTP 200 response whose JSON body is an array. -/
def listBodyResponse : HttpResponse :=
  { status_code := 200, reason := "OK", url := "https://api.telegram.org/botT/sendMessage",
    text := "[]", parsed := some (JsonValue.arr []) }

/-- An HTTP 200 response whose JSON body is an object with `ok` bound to `0`. -/
def okZeroResponse : HttpResponse :=
  { status_code := 200, reason := "OK", url := "https://api.telegram.org/botT/sendMessage",
    text := "\x7b\"ok\": 0\x7d", parsed := some (JsonValue.obj [("ok", JsonValue.num 0)]) }

/-- A sample issue, used by concrete witnesses. -/
def sampleIssue : Issue :=
  { title := "Boom", project_name := "Acme", absolute_url := "/issues/issue/7/" }

/-- A one-issue table holding `sampleIssue` under id 7. -/
def sampleIssues : Nat → Option Issue := fun k => if k = 7 then some sampleIssue else none

/-- Length of a character-based prefix. -/
theorem string_length_take (s : String) (n : Nat) : (s.take n).length = min n s.length := by
  rw [String.take_eq, String.length_mk, List.length_take]
  rfl

/-- A prefix at least as long as the string is the string itself. -/
theorem string_take_of_length_le (s : String) (n : Nat) (h : s.length ≤ n) :
    s.take n = s := by
  rw [String.take_eq, List.take_of_length_le h]

/-- C2: `_truncate_message` returns at most 4000 characters; for input longer
than 4000 the result is the first 4000 − 3 characters followed by `"..."` and
has length exactly 4000; for input of length at most 4000 the input is
returned unchanged. -/
theorem C2_truncate_message_spec (text : String) :
    (_truncate_message text).length ≤ 4000 ∧
    (4000 < text.length →
      _truncate_message text = text.take (4000 - 3) ++ "..." ∧
      (_truncate_message text).length = 4000) ∧
    (text.length ≤ 4000 → _truncate_message text = text) := by
  refine ⟨?_, ?_, ?_⟩
  · by_cases h : text.length ≤ 4000
    · simp [_truncate_message, h]
    · simp only [_truncate_message, if_neg h, String.length_append, string_length_take]
      have h3 : ("..." : String).length = 3 := rfl
      omega
  · intro h
    have hn : ¬ text.length ≤ 4000 := by omega
    refine ⟨by simp [_truncate_message, if_neg hn], ?_⟩
    simp only [_truncate_message, if_neg hn, String.length_append, string_length_take]
    have h3 : ("..." : String).length = 3 := rfl
    omega
  · intro h
    simp [_truncate_message, h]

/-- Length of the 4001-character sample input. -/
theorem longText_length : longText.length = 4001 := by
  rw [longText, String.length_mk, List.length_replicate]

/-- Witness for C2 at a short and at a 4001-character input. -/
theorem C2_truncate_message_spec_witness :
    _truncate_message "abc" = "abc" ∧ (_truncate_message longText).length = 4000 :=
  ⟨(C2_truncate_message_spec "abc").2.2 (by decide),
   ((C2_truncate_message_spec longText).2.1 (by rw [longText_length]; omega)).2⟩

/-- C4: when no record with the given id exists at write time, both outcome
writes return the table unchanged — no record is created or modified (and,
being total functions of the model, they complete without error). -/
theorem C4_missing_record_noop (store : Store) (id : Nat) (e : PyException)
    (resp : Option HttpResponse) (now : Nat) (h : store id = none) :
    _store_failure_info id e resp store now = store ∧
    _store_success_info id store = store := by
  constructor
  · simp [_store_failure_info, h]
  · simp [_store_success_info, h]

/-- Witness for C4 at id 2, absent from the one-record sample table. -/
theorem C4_missing_record_noop_witness :
    _store_failure_info 2 (PyException.mk "ConnectTimeout" "timed out") none sampleStore 7 =
      sampleStore ∧
    _store_success_info 2 sampleStore = sampleStore :=
  C4_missing_record_noop sampleStore 2 (PyException.mk "ConnectTimeout" "timed out") none 7 rfl

/-- C7: a transport-level failure (a `RequestException` carrying no response,
e.g. a timeout) is recorded with null status code, null response text and null
is-json flag, and with the exception's class name as the error type tag. -/
theorem C7_transport_failure_fields (store : Store) (id : Nat)
    (c : MessagingServiceConfig) (now : Nat) (bot : String) (p : Payload)
    (e : PyException) (h : store id = some c) :
    (_send_telegram_message bot p id store now (PostOutcome.requestException e none)) id =
      some { c with
        last_failure_timestamp := some now,
        last_failure_error_type := some e.ty,
        last_failure_error_message := some e.msg,
        last_failure_status_code := none,
        last_failure_response_text := none,
        last_failure_is_json := none } := by
  simp [_send_telegram_message, _store_failure_info, h, storeSave]

/-- Witness for C7: a connect timeout against the sample table. -/
theorem C7_transport_failure_fields_witness :
    (_send_telegram_message "tok" samplePayload 1 sampleStore 5
        (PostOutcome.requestException (PyException.mk "ConnectTimeout" "timed out") none)) 1 =
      some { sampleConfig with
        last_failure_timestamp := some 5,
        last_failure_error_type := some "ConnectTimeout",
        last_failure_error_message := some "timed out",
        last_failure_status_code := none,
        last_failure_response_text := none,
        last_failure_is_json := none } :=
  C7_transport_failure_fields sampleStore 1 sampleConfig 5 "tok" samplePayload
    (PyException.mk "ConnectTimeout" "timed out") rfl

/-- C5: an HTTP 200 response whose parsed JSON body carries `"ok": false` is
recorded as a failure despite the 2xx status: status code 200 and the body
(truncated to 2000 characters) are captured, the is-json flag is set, and the
error message is the body's `description` when it is a string (the generic
`"Telegram API error"` when the key is absent). -/
theorem C5_ok_false_records_failure (store : Store) (id : Nat)
    (c : MessagingServiceConfig) (now : Nat) (bot : String) (p : Payload)
    (r : HttpResponse) (fields : List (String × JsonValue))
    (hc : store id = some c) (hs : r.status_code = 200)
    (hp : r.parsed = some (JsonValue.obj fields))
    (hok : List.lookup "ok" fields = some (JsonValue.bool false)) :
    (_send_telegram_message bot p id store now (PostOutcome.ok r)) id =
      some { c with
        last_failure_timestamp := some now,
        last_failure_error_type := some "HTTPError",
        last_failure_error_message := some (descriptionMessage fields),
        last_failure_status_code := some 200,
        last_failure_response_text := some (r.text.take 2000),
        last_failure_is_json := some true } ∧
    (List.lookup "description" fields = some (JsonValue.str "chat not found") →
      descriptionMessage fields = "chat not found") ∧
    (List.lookup "description" fields = none →
      descriptionMessage fields = "Telegram API error") := by
  refine ⟨?_, ?_, ?_⟩
  · simp [_send_telegram_message, hs, hp, isOkFalse, hok, _store_failure_info, hc, storeSave]
  · intro hd
    simp [descriptionMessage, hd, pyStr]
  · intro hd
    simp [descriptionMessage, hd]

/-- Witness for C5: the `{"ok": false, "description": "chat not found"}`
scenario against the sample table. -/
theorem C5_ok_false_records_failure_witness :
    (_send_telegram_message "tok" samplePayload 1 sampleStore 5
        (PostOutcome.ok okFalseResponse)) 1 =
      some { sampleConfig with
        last_failure_timestamp := some 5,
        last_failure_error_type := some "HTTPError",
        last_failure_error_message := some "chat not found",
        last_failure_status_code := some 200,
        last_failure_response_text := some "\x7b\"ok\": false, \"description\": \"chat not found\"\x7d",
        last_failure_is_json := some true } := by
  have h := (C5_ok_false_records_failure sampleStore 1 sampleConfig 5 "tok" samplePayload
    okFalseResponse chatNotFoundBody rfl rfl rfl rfl).1
  rw [string_take_of_length_le okFalseResponse.text 2000 (by decide)] at h
  exact h

/-- C6: an HTTP 401 response with reason phrase `Unauthorized` and a JSON body
is recorded as a failure with status code 401 captured, the body truncated to
its first 2000 characters, the is-json flag true, and an error message (built
by `raise_for_status`) containing `Unauthorized`. -/
theorem C6_http_error_records_failure (store : Store) (id : Nat)
    (c : MessagingServiceConfig) (now : Nat) (bot : String) (p : Payload)
    (r : HttpResponse) (j : JsonValue)
    (hc : store id = some c) (hs : r.status_code = 401)
    (hreason : r.reason = "Unauthorized") (hp : r.parsed = some j) :
    (_send_telegram_message bot p id store now (PostOutcome.ok r)) id =
      some { c with
        last_failure_timestamp := some now,
        last_failure_error_type := some "HTTPError",
        last_failure_error_message :=
          some ("401 Client Error: Unauthorized for url: " ++ r.url),
        last_failure_status_code := some 401,
        last_failure_response_text := some (r.text.take 2000),
        last_failure_is_json := some true } := by
  have hpre : (toString (401 : Nat) ++ " Client Error: " ++ "Unauthorized" ++ " for url: ")
      = "401 Client Error: Unauthorized for url: " := by decide
  have hty : (raise_for_status_error r).ty = "HTTPError" := rfl
  have hmsg : (raise_for_status_error r).msg =
      "401 Client Error: Unauthorized for url: " ++ r.url := by
    simp only [raise_for_status_error, hs, hreason]
    rw [if_pos (by omega), ← hpre]
  simp [_send_telegram_message, hs, _store_failure_info, hc, storeSave, hty, hmsg, hp]

/-- Witness for C6: the 401 `Unauthorized` scenario against the sample
table. -/
theorem C6_http_error_records_failure_witness :
    (_send_telegram_message "tok" samplePayload 1 sampleStore 5
        (PostOutcome.ok unauthorizedResponse)) 1 =
      some { sampleConfig with
        last_failure_timestamp := some 5,
        last_failure_error_type := some "HTTPError",
        last_failure_error_message := some
          "401 Client Error: Unauthorized for url: https://api.telegram.org/botT/sendMessage",
        last_failure_status_code := some 401,
        last_failure_response_text := some "\x7b\"ok\": false, \"description\": \"Unauthorized\"\x7d",
        last_failure_is_json := some true } := by
  have h := C6_http_error_records_failure sampleStore 1 sampleConfig 5 "tok" samplePayload
    unauthorizedResponse (JsonValue.obj unauthorizedBody) rfl rfl rfl rfl
  rw [string_take_of_length_le unauthorizedResponse.text 2000 (by decide)] at h
  exact h

/-- Counterexample to C10 as stated: an HTTP 200 response whose JSON body is
an array — a body with no `ok` key — is not classified as success; fetching
the key raises `AttributeError`, which the generic handler records as a
failure (with no response captured). -/
theorem C10_counterexample :
    (_send_telegram_message "tok" samplePayload 1 sampleStore 5
        (PostOutcome.ok listBodyResponse)) 1 ≠
      (_store_success_info 1 sampleStore) 1 ∧
    (_send_telegram_message "tok" samplePayload 1 sampleStore 5
        (PostOutcome.ok listBodyResponse)) 1 =
      some { sampleConfig with
        last_failure_timestamp := some 5,
        last_failure_error_type := some "AttributeError",
        last_failure_error_message := some "\x27list\x27 object has no attribute \x27get\x27",
        last_failure_status_code := none,
        last_failure_response_text := none,
        last_failure_is_json := none } := by
  constructor
  · decide
  · rfl

/-- C10 (amended): a non-error HTTP response whose parsed JSON body is an
object in which `ok` is missing or bound to anything other than the boolean
`false` is classified as success — the application-failure branch triggers
only when the object's `ok` entry is exactly the boolean `false`. -/
theorem C10_amended_ok_identity_check (store : Store) (id : Nat)
    (c : MessagingServiceConfig) (now : Nat) (bot : String) (p : Payload)
    (r : HttpResponse) (fields : List (String × JsonValue))
    (hc : store id = some c) (hs : r.status_code < 400)
    (hp : r.parsed = some (JsonValue.obj fields))
    (hok : isOkFalse (List.lookup "ok" fields) = false) :
    _send_telegram_message bot p id store now (PostOutcome.ok r) =
      _store_success_info id store := by
  have hs' : ¬ (r.status_code ≥ 400) := by omega
  simp [_send_telegram_message, hs', hp, hok]

/-- Witness for the amended C10: a 200 response with body `{"ok": 0}` leaves
the classification on the success path. -/
theorem C10_amended_ok_identity_check_witness :
    _send_telegram_message "tok" samplePayload 1 sampleStore 5
        (PostOutcome.ok okZeroResponse) =
      _store_success_info 1 sampleStore :=
  C10_amended_ok_identity_check sampleStore 1 sampleConfig 5 "tok" samplePayload
    okZeroResponse [("ok", JsonValue.num 0)] rfl (by decide) rfl rfl

/-- Counterexample to C3 as stated: a transport-level failure (no response
object) writes a record in which the timestamp/type/message triple is
populated while status code, response text and is-json stay null — the six
fields are neither all null nor all populated. -/
theorem C3_counterexample :
    (_store_failure_info 1 (PyException.mk "ConnectTimeout" "timed out") none
        sampleStore 5) 1 =
      some { sampleConfig with
        last_failure_timestamp := some 5,
        last_failure_error_type := some "ConnectTimeout",
        last_failure_error_message := some "timed out" } ∧
    all_failure_fields_null { sampleConfig with
        last_failure_timestamp := some 5,
        last_failure_error_type := some "ConnectTimeout",
        last_failure_error_message := some "timed out" } = false ∧
    all_failure_fields_populated { sampleConfig with
        last_failure_timestamp := some 5,
        last_failure_error_type := some "ConnectTimeout",
        last_failure_error_message := some "timed out" } = false :=
  ⟨rfl, rfl, rfl⟩

/-- C3 (amended): after either outcome write, the written record is a
consistent snapshot — all six failure fields null, or timestamp, error type
and error message populated with the response-derived triple (status code,
response text, is-json) uniformly all populated or all null — never any other
mix. -/
theorem C3_amended_snapshot_consistent (store : Store) (id : Nat)
    (e : PyException) (resp : Option HttpResponse) (now : Nat) :
    (∀ c, (_store_failure_info id e resp store now) id = some c →
      failure_snapshot_ok c = true) ∧
    (∀ c, (_store_success_info id store) id = some c →
      failure_snapshot_ok c = true) := by
  constructor
  · intro c hc
    cases h : store id with
    | none =>
      rw [_store_failure_info, h] at hc
      simp [h] at hc
    | some cfg =>
      rw [_store_failure_info, h] at hc
      cases resp with
      | none =>
        simp [storeSave] at hc
        simp [← hc, failure_snapshot_ok, all_failure_fields_null]
      | some r =>
        simp [storeSave] at hc
        simp [← hc, failure_snapshot_ok, all_failure_fields_null]
  · intro c hc
    cases h : store id with
    | none =>
      rw [_store_success_info, h] at hc
      simp [h] at hc
    | some cfg =>
      rw [_store_success_info, h] at hc
      simp [storeSave] at hc
      simp [← hc, failure_snapshot_ok, all_failure_fields_null, clear_failure_status]

/-- Witness for the amended C3: the transport-failure snapshot of the
counterexample input is accepted as consistent. -/
theorem C3_amended_snapshot_consistent_witness :
    failure_snapshot_ok { sampleConfig with
        last_failure_timestamp := some 5,
        last_failure_error_type := some "ConnectTimeout",
        last_failure_error_message := some "timed out" } = true :=
  (C3_amended_snapshot_consistent sampleStore 1
      (PyException.mk "ConnectTimeout" "timed out") none 5).1
    { sampleConfig with
      last_failure_timestamp := some 5,
      last_failure_error_type := some "ConnectTimeout",
      last_failure_error_message := some "timed out" } rfl

/-- C8: on any existing record, a success write following a failure write
leaves the record with every failure field null (the cleared original
record). -/
theorem C8_fail_then_succeed_clears (store : Store) (id : Nat)
    (c : MessagingServiceConfig) (e : PyException) (resp : Option HttpResponse)
    (now : Nat) (h : store id = some c) :
    (_store_success_info id (_store_failure_info id e resp store now)) id =
      some (clear_failure_status c) ∧
    all_failure_fields_null (clear_failure_status c) = true := by
  constructor
  · cases resp with
    | none =>
      simp [_store_failure_info, _store_success_info, h, storeSave, clear_failure_status]
    | some r =>
      simp [_store_failure_info, _store_success_info, h, storeSave, clear_failure_status]
  · simp [all_failure_fields_null, clear_failure_status, Option.isNone]

/-- Witness for C8: fail (with the 200 `ok: false` response) then succeed on
the sample record, ending all-null. -/
theorem C8_fail_then_succeed_clears_witness :
    (_store_success_info 1 (_store_failure_info 1 (PyException.mk "HTTPError" "chat not found")
        (some okFalseResponse) sampleStore 9)) 1 = some sampleConfig ∧
    all_failure_fields_null sampleConfig = true :=
  C8_fail_then_succeed_clears sampleStore 1 sampleConfig
    (PyException.mk "HTTPError" "chat not found") (some okFalseResponse) 9 rfl

/-- Counterexample to C1 as stated: with the configuration record present, an
alert delivery whose issue lookup fails raises `Issue.DoesNotExist` out of the
task — the exception happens during message composition, before the protected
delivery call, so it propagates to the task queue instead of being recorded as
a failure. -/
theorem C1_counterexample :
    telegram_backend_send_alert "tok" "@chan" 7 "sd" "aa" "New" 1 none
        (fun _ => none) "https://bugsink.example" sampleStore 5
        (PostOutcome.ok okFalseResponse) =
      Except.error (PyException.mk "DoesNotExist" "Issue matching query does not exist.") :=
  rfl

/-- C1 (amended): any unexpected exception raised during the delivery call
and outcome classification is caught at the outermost level of
`_send_telegram_message` and recorded as a persisted failure for the
correlation id; but exceptions raised during alert composition (the issue
lookup and message building, which run before the protected delivery call)
propagate out of the task — when the issue exists, the alert task completes
without raising. -/
theorem C1_amended_executor_catches (store : Store) (id : Nat)
    (c : MessagingServiceConfig) (now : Nat) (bot : String) (p : Payload)
    (e : PyException) (issues : Nat → Option Issue) (iss : Issue) (iid : Nat)
    (chat sd aa ar burl : String) (ur : Option String) (net : PostOutcome) :
    (store id = some c →
      (_send_telegram_message bot p id store now (PostOutcome.otherException e)) id =
        some { c with
          last_failure_timestamp := some now,
          last_failure_error_type := some e.ty,
          last_failure_error_message := some e.msg,
          last_failure_status_code := none,
          last_failure_response_text := none,
          last_failure_is_json := none }) ∧
    (issues iid = some iss →
      isOkResult (telegram_backend_send_alert bot chat iid sd aa ar id ur issues burl
        store now net) = true) := by
  constructor
  · intro hc
    simp [_send_telegram_message, _store_failure_info, hc, storeSave]
  · intro hi
    simp [telegram_backend_send_alert, hi, isOkResult]

/-- Witness for the amended C1: an unexpected `KeyError` during delivery is
persisted on the sample record, and the alert task for an existing issue
returns without raising. -/
theorem C1_amended_executor_catches_witness :
    (_send_telegram_message "tok" samplePayload 1 sampleStore 5
        (PostOutcome.otherException (PyException.mk "KeyError" "boom"))) 1 =
      some { sampleConfig with
        last_failure_timestamp := some 5,
        last_failure_error_type := some "KeyError",
        last_failure_error_message := some "boom",
        last_failure_status_code := none,
        last_failure_response_text := none,
        last_failure_is_json := none } ∧
    isOkResult (telegram_backend_send_alert "tok" "@chan" 7 "sd" "aa" "New" 1 none
        sampleIssues "https://bugsink.example" sampleStore 5
        (PostOutcome.ok okFalseResponse)) = true :=
  ⟨(C1_amended_executor_catches sampleStore 1 sampleConfig 5 "tok" samplePayload
      (PyException.mk "KeyError" "boom") sampleIssues sampleIssue 7
      "@chan" "sd" "aa" "New" "https://bugsink.example" none
      (PostOutcome.ok okFalseResponse)).1 rfl,
   (C1_amended_executor_catches sampleStore 1 sampleConfig 5 "tok" samplePayload
      (PyException.mk "KeyError" "boom") sampleIssues sampleIssue 7
      "@chan" "sd" "aa" "New" "https://bugsink.example" none
      (PostOutcome.ok okFalseResponse)).2 rfl⟩

/-- C9: the composed test-message text for project `Acme` and display name
`Prod Alerts` is exactly the three lines — the fixed boilerplate sentence,
`Project: Acme` and `Message backend: Prod Alerts`. -/
theorem C9_test_message_three_lines :
    (telegram_backend_send_test_message "tok" "@chan" "Acme" "Prod Alerts" 1 sampleStore 5
        (PostOutcome.ok okFalseResponse)).1.text =
      "Test message by Bugsink to test the Telegram bot setup.\nProject: Acme\nMessage backend: Prod Alerts" ∧
    splitOnNewlines (telegram_backend_send_test_message "tok" "@chan" "Acme" "Prod Alerts" 1
        sampleStore 5 (PostOutcome.ok okFalseResponse)).1.text =
      ["Test message by Bugsink to test the Telegram bot setup.", "Project: Acme",
       "Message backend: Prod Alerts"] := by
  constructor
  · rfl
  · decide
